import Mathlib

/-!
Shallow embedding of the `ferriswheel` LED-effect crate
(`src/crates/ferriswheel/src/*.rs`) and proofs about its specification.

Machine integers are modelled as `Nat`.  Casts that can truncate in Rust
(`as u8`, `as u16`) are written explicitly as `% 256` / `% 65536`;
`usize` subtraction that can wrap in release builds is written as addition
of `2^64` followed by `% 2^64`.  Buffers (`&mut [RGB8]`) are `List RGB8`;
a render call returns the final buffer together with the `Result` value,
and an update call additionally returns the final effect state, mirroring
the `&mut self` / `&mut [RGB8]` signatures.
-/

set_option maxRecDepth 4096

namespace Ferriswheel

/-- `rgb::RGB8`: three 8-bit channels, structural equality. -/
structure RGB8 where
  r : Nat
  g : Nat
  b : Nat
deriving DecidableEq

/-- `effect.rs` `Direction` (rainbow.rs duplicates the same enum). -/
inductive Direction where
  | Clockwise
  | CounterClockwise
deriving DecidableEq

/-- `EffectError` from `effect.rs`, together with the `TooManySections`
variant that `section.rs` constructs (the enum declaration in `effect.rs`
omits it, but `section.rs` uses it; the merged error taxonomy is the one
the spec documents). -/
inductive EffectError where
  | ZeroLeds
  | TooManyLeds (requested max : Nat)
  | ZeroStep
  | ZeroDuty
  | BufferTooSmall (required actual : Nat)
  | TooManySections (requested max : Nat)
deriving DecidableEq

/-- `effect.rs` `MAX_LEDS`. -/
def MAX_LEDS : Nat := 256

/-- `section.rs` `MAX_SECTIONS`. -/
def MAX_SECTIONS : Nat := 8

instance {ε α : Type} [DecidableEq ε] [DecidableEq α] : DecidableEq (Except ε α) := fun a b =>
  match a, b with
  | .error x, .error y => decidable_of_iff (x = y) (by simp)
  | .error _, .ok _ => isFalse (by simp)
  | .ok _, .error _ => isFalse (by simp)
  | .ok x, .ok y => decidable_of_iff (x = y) (by simp)

/-- Result of a `current(&self, buffer: &mut [RGB8]) -> Result<(), EffectError>`
call: the `Result` value and the buffer as left by the call. -/
structure Render where
  result : Except EffectError Unit
  buffer : List RGB8
deriving DecidableEq

/-- Result of an `update(&mut self, buffer) -> Result<(), EffectError>` call:
the `Result` value, the effect state as left by the call and the buffer. -/
structure Step (σ : Type) where
  result : Except EffectError Unit
  state  : σ
  buffer : List RGB8
deriving DecidableEq

/-- `util.rs` `SINE_TABLE`: 256-entry half-wave-rectified sine lookup. -/
def sineTable : List Nat :=
  [  0,   3,   6,   9,  12,  16,  19,  22,  25,  28,  31,  34,  37,  40,  44,  47,
    50,  53,  56,  59,  62,  65,  68,  71,  74,  77,  80,  83,  86,  89,  92,  95,
    98, 100, 103, 106, 109, 112, 115, 117, 120, 123, 126, 128, 131, 134, 136, 139,
   142, 144, 147, 149, 152, 154, 157, 159, 162, 164, 167, 169, 171, 174, 176, 178,
   181, 183, 185, 187, 189, 192, 194, 196, 198, 200, 202, 204, 206, 207, 209, 211,
   213, 215, 216, 218, 220, 221, 223, 225, 226, 228, 229, 231, 232, 234, 235, 236,
   238, 239, 240, 242, 243, 244, 245, 246, 247, 248, 249, 250, 251, 252, 253, 253,
   254, 255, 255, 255, 255, 255, 255, 255, 255, 255, 255, 255, 255, 255, 254, 253,
   253, 252, 251, 250, 249, 248, 247, 246, 245, 244, 243, 242, 240, 239, 238, 236,
   235, 234, 232, 231, 229, 228, 226, 225, 223, 221, 220, 218, 216, 215, 213, 211,
   209, 207, 206, 204, 202, 200, 198, 196, 194, 192, 189, 187, 185, 183, 181, 178,
   176, 174, 171, 169, 167, 164, 162, 159, 157, 154, 152, 149, 147, 144, 142, 139,
   136, 134, 131, 128, 126, 123, 120, 117, 115, 112, 109, 106, 103, 100,  98,  95,
    92,  89,  86,  83,  80,  77,  74,  71,  68,  65,  62,  59,  56,  53,  50,  47,
    44,  40,  37,  34,  31,  28,  25,  22,  19,  16,  12,   9,   6,   3,   0,   0,
     0,   0,   0,   0,   0,   0,   0,   0,   0,   0,   0,   0,   0,   0,   0,   0]

/-- `util.rs` `sine_wave(phase: u8) -> u8`: table lookup (a `u8` phase is
always in range; the default is never reached for `phase < 256`). -/
def sine_wave (phase : Nat) : Nat :=
  sineTable.getD phase 0

/-- `util.rs` `scale_brightness`: per channel `(channel * brightness) / 255`
with a `u16` intermediate (no truncation occurs for 8-bit inputs). -/
def scale_brightness (color : RGB8) (brightness : Nat) : RGB8 :=
  ⟨color.r * brightness / 255, color.g * brightness / 255, color.b * brightness / 255⟩

/-- `util.rs` `lerp_color`: per channel `(a*(255-t) + b*t) / 255` with `u16`
intermediates. -/
def lerp_color (a b : RGB8) (t : Nat) : RGB8 :=
  ⟨(a.r * (255 - t) + b.r * t) / 255,
   (a.g * (255 - t) + b.g * t) / 255,
   (a.b * (255 - t) + b.b * t) / 255⟩

/-- The all-black pixel, `RGB8::default()` / `RGB8::new(0,0,0)`. -/
def black : RGB8 := ⟨0, 0, 0⟩

/-- `hsv.rs` `hsv_to_rgb(hue, saturation, value) -> RGB8`: integer HSV→RGB.
`hue*6` is `u16`; `sector = h >> 8`, `fraction = h & 0xFF`; `p`, `q`, `t`
use `u16` intermediates (the `as u8` casts are lossless for 8-bit inputs,
since all three quotients are at most 255). -/
def hsv_to_rgb (hue saturation value : Nat) : RGB8 :=
  if saturation = 0 then ⟨value, value, value⟩
  else
    let h := hue * 6
    let sector := h / 256
    let fraction := h % 256
    let s := saturation
    let v := value
    let p := v * (255 - s) / 255
    let q := v * (255 - s * fraction / 255) / 255
    let t := v * (255 - s * (255 - fraction) / 255) / 255
    if sector = 0 then ⟨v, t, p⟩
    else if sector = 1 then ⟨q, v, p⟩
    else if sector = 2 then ⟨p, v, t⟩
    else if sector = 3 then ⟨p, q, v⟩
    else if sector = 4 then ⟨t, p, v⟩
    else ⟨v, p, q⟩

/-- `u8` wrapping addition (`wrapping_add`). -/
def wadd8 (a b : Nat) : Nat := (a + b) % 256

/-- `u8` wrapping subtraction (`wrapping_sub`); agrees with two's-complement
wraparound for operands below 256. -/
def wsub8 (a b : Nat) : Nat := (a + (256 - b % 256)) % 256

/-- `u16` wrapping subtraction, the semantics of `a - b` on `u16` values in a
release build; for `b ≤ a` it is plain subtraction. -/
def wsub16 (a b : Nat) : Nat := (a + (65536 - b % 65536)) % 65536

/-- `usize` modulus (`2^64` on the target platform). -/
def USIZE : Nat := 2 ^ 64

/-- `rainbow.rs` `RainbowEffect` state. -/
structure RainbowEffect where
  num_leds : Nat
  hue_offset : Nat
  speed : Nat
  brightness : Nat
  saturation : Nat
  direction : Direction
deriving DecidableEq

/-- The pixel `rainbow.rs` `current` writes at LED index `i`:
`led_hue = ((i*256)/num_leds) as u8`, `hue = led_hue.wrapping_add(hue_offset)`,
then HSV→RGB with the configured saturation and brightness. -/
def RainbowEffect.pixel (e : RainbowEffect) (i : Nat) : RGB8 :=
  hsv_to_rgb (wadd8 (i * 256 / e.num_leds % 256) e.hue_offset) e.saturation e.brightness

/-- `rainbow.rs` `RainbowEffect::current`: buffer-size check, then every LED
index `i < num_leds` receives its rainbow pixel; the rest of the buffer is
not touched. -/
def RainbowEffect.current (e : RainbowEffect) (buffer : List RGB8) : Render :=
  if buffer.length < e.num_leds then
    ⟨.error (.BufferTooSmall e.num_leds buffer.length), buffer⟩
  else
    ⟨.ok (), (List.range e.num_leds).map e.pixel ++ buffer.drop e.num_leds⟩

/-- `rainbow.rs` `RainbowEffect::update`: `current`, then on success advance
`hue_offset` by `speed` with `u8` wraparound, the direction choosing between
`wrapping_add` and `wrapping_sub`. -/
def RainbowEffect.update (e : RainbowEffect) (buffer : List RGB8) : Step RainbowEffect :=
  let r := e.current buffer
  match r.result with
  | .error err => ⟨.error err, e, r.buffer⟩
  | .ok () =>
    let offset :=
      match e.direction with
      | .Clockwise => wadd8 e.hue_offset e.speed
      | .CounterClockwise => wsub8 e.hue_offset e.speed
    ⟨.ok (), { e with hue_offset := offset }, r.buffer⟩

/-- `pulse.rs` `PulseEffect` state. -/
structure PulseEffect where
  num_leds : Nat
  color : RGB8
  phase : Nat
  speed : Nat
  min_brightness : Nat
  max_brightness : Nat
deriving DecidableEq

/-- `pulse.rs` `PulseEffect::current_brightness`:
`min + sine_wave(phase) * (max - min) / 255` with `u16` intermediates; the
subtraction is `u16` (wrapping in a release build, hence `wsub16`) and the
result is cast back to `u8`. -/
def PulseEffect.current_brightness (e : PulseEffect) : Nat :=
  let sine_val := sine_wave e.phase
  let range := wsub16 e.max_brightness e.min_brightness
  (e.min_brightness + sine_val * range / 255) % 256

/-- `pulse.rs` `PulseEffect::current`: buffer-size check, then every LED gets
the configured color scaled by the current brightness. -/
def PulseEffect.current (e : PulseEffect) (buffer : List RGB8) : Render :=
  if buffer.length < e.num_leds then
    ⟨.error (.BufferTooSmall e.num_leds buffer.length), buffer⟩
  else
    ⟨.ok (),
      List.replicate e.num_leds (scale_brightness e.color e.current_brightness) ++
        buffer.drop e.num_leds⟩

/-- `pulse.rs` `PulseEffect::update`: `current`, then advance `phase` by
`speed` with `u8` wraparound. -/
def PulseEffect.update (e : PulseEffect) (buffer : List RGB8) : Step PulseEffect :=
  let r := e.current buffer
  match r.result with
  | .error err => ⟨.error err, e, r.buffer⟩
  | .ok () => ⟨.ok (), { e with phase := wadd8 e.phase e.speed }, r.buffer⟩

/-- `spinner.rs` `SpinnerEffect` state. -/
structure SpinnerEffect where
  num_leds : Nat
  color : RGB8
  position : Nat
  speed : Nat
  tail_length : Nat
  direction : Direction
deriving DecidableEq

/-- The tail brightness `spinner.rs` `current` computes for the tail pixel at
distance `i` from the head: `(255 * (total - i) / total) as u8` with
`total = tail_length + 1`. -/
def spinnerTailBrightness (tail_length i : Nat) : Nat :=
  let total := tail_length + 1
  255 * (total - i) / total % 256

/-- The tail index `spinner.rs` `current` writes for distance `i`:
stepping against the direction of travel.  Clockwise the code computes
`(head + n - i) % n` in `usize` arithmetic, which wraps modulo `2^64` when
`i > head + n` (release-build semantics). -/
def spinnerTailIndex (direction : Direction) (head n i : Nat) : Nat :=
  match direction with
  | .Clockwise => (head + n + USIZE - i) % USIZE % n
  | .CounterClockwise => (head + i) % n

/-- The first `num_leds` entries as `spinner.rs` `current` leaves them: all
cleared to black, the head (`position % n`) at full color, then for `i` in
`1..=tail_length` the tail pixel at `spinnerTailIndex` gets the color scaled
by `spinnerTailBrightness` (later writes overwrite earlier ones, as in the
source's loop order). -/
def SpinnerEffect.framePrefix (e : SpinnerEffect) : List RGB8 :=
  let n := e.num_leds
  let head := e.position % n
  (List.range e.tail_length).foldl
    (fun buf j =>
      let i := j + 1
      buf.set (spinnerTailIndex e.direction head n i)
        (scale_brightness e.color (spinnerTailBrightness e.tail_length i)))
    ((List.replicate n black).set head e.color)

/-- `spinner.rs` `SpinnerEffect::current`: buffer-size check, then the first
`num_leds` entries are replaced by the spinner frame; the rest of the buffer
is not touched. -/
def SpinnerEffect.current (e : SpinnerEffect) (buffer : List RGB8) : Render :=
  if buffer.length < e.num_leds then
    ⟨.error (.BufferTooSmall e.num_leds buffer.length), buffer⟩
  else
    ⟨.ok (), e.framePrefix ++ buffer.drop e.num_leds⟩

/-- `effect.rs` `advance_position`: move `speed` steps around a ring of
`num_leds` LEDs, clockwise via `usize` `rem_euclid`, counter-clockwise via
signed (`isize`) `rem_euclid`. -/
def advance_position (position speed num_leds : Nat) (direction : Direction) : Nat :=
  match direction with
  | .Clockwise => (position + speed) % num_leds
  | .CounterClockwise => (((position : Int) - (speed : Int)).emod (num_leds : Int)).toNat

/-- `spinner.rs` `SpinnerEffect::update`: `current`, then advance `position`
by `speed` around the ring (the inline arithmetic in `update` is exactly
`advance_position`). -/
def SpinnerEffect.update (e : SpinnerEffect) (buffer : List RGB8) : Step SpinnerEffect :=
  let r := e.current buffer
  match r.result with
  | .error err => ⟨.error err, e, r.buffer⟩
  | .ok () =>
    ⟨.ok (),
      { e with position := advance_position e.position e.speed e.num_leds e.direction },
      r.buffer⟩

/-- `chase.rs` `ChaseEffect` state. -/
structure ChaseEffect where
  num_leds : Nat
  color : RGB8
  position : Nat
  speed : Nat
  segment_length : Nat
  direction : Direction
deriving DecidableEq

/-- The first `num_leds` entries as `chase.rs` `current` leaves them: all
cleared to black, then the `segment_length` LEDs starting at `position`
(wrapping modulo `num_leds`) set to the color. -/
def ChaseEffect.framePrefix (e : ChaseEffect) : List RGB8 :=
  (List.range e.segment_length).foldl
    (fun buf i => buf.set ((e.position + i) % e.num_leds) e.color)
    (List.replicate e.num_leds black)

/-- `chase.rs` `ChaseEffect::current`: buffer-size check, then the first
`num_leds` entries are replaced by the chase frame. -/
def ChaseEffect.current (e : ChaseEffect) (buffer : List RGB8) : Render :=
  if buffer.length < e.num_leds then
    ⟨.error (.BufferTooSmall e.num_leds buffer.length), buffer⟩
  else
    ⟨.ok (), e.framePrefix ++ buffer.drop e.num_leds⟩

/-- `chase.rs` `ChaseEffect::update`: `current`, then `advance_position`. -/
def ChaseEffect.update (e : ChaseEffect) (buffer : List RGB8) : Step ChaseEffect :=
  let r := e.current buffer
  match r.result with
  | .error err => ⟨.error err, e, r.buffer⟩
  | .ok () =>
    ⟨.ok (),
      { e with position := advance_position e.position e.speed e.num_leds e.direction },
      r.buffer⟩

/-- `flash.rs` `FlashEffect` state. -/
structure FlashEffect where
  num_leds : Nat
  color : RGB8
  off_color : RGB8
  on_ticks : Nat
  off_ticks : Nat
  counter : Nat
deriving DecidableEq

/-- `flash.rs` `FlashEffect::is_on`: `counter < on_ticks`. -/
def FlashEffect.is_on (e : FlashEffect) : Bool :=
  e.counter < e.on_ticks

/-- `flash.rs` `FlashEffect::current`: buffer-size check, then `fill_solid`
of the first `num_leds` entries with the on- or off-color. -/
def FlashEffect.current (e : FlashEffect) (buffer : List RGB8) : Render :=
  if buffer.length < e.num_leds then
    ⟨.error (.BufferTooSmall e.num_leds buffer.length), buffer⟩
  else
    ⟨.ok (),
      List.replicate e.num_leds (if e.is_on then e.color else e.off_color) ++
        buffer.drop e.num_leds⟩

/-- `flash.rs` `FlashEffect::update`: `current`, then
`counter = ((counter as u16 + 1) % (on_ticks as u16 + off_ticks as u16)) as u8`;
the final `as u8` cast is the `% 256`. -/
def FlashEffect.update (e : FlashEffect) (buffer : List RGB8) : Step FlashEffect :=
  let r := e.current buffer
  match r.result with
  | .error err => ⟨.error err, e, r.buffer⟩
  | .ok () =>
    ⟨.ok (),
      { e with counter := (e.counter + 1) % (e.on_ticks + e.off_ticks) % 256 },
      r.buffer⟩

/-- `progress.rs` `ProgressEffect` state. -/
structure ProgressEffect where
  num_leds : Nat
  fill_color : RGB8
  empty_color : RGB8
  progress : Nat
deriving DecidableEq

/-- The pixel `progress.rs` `current` writes at LED index `i`, given
`fill_256 = progress * num_leds` (`u32`), `full_leds = fill_256 / 255` and
`fractional = ((fill_256 % 255) * 255 / 255) as u8`. -/
def ProgressEffect.pixel (e : ProgressEffect) (i : Nat) : RGB8 :=
  let fill_256 := e.progress * e.num_leds
  let full_leds := fill_256 / 255
  let fractional := fill_256 % 255 * 255 / 255 % 256
  if i < full_leds then e.fill_color
  else if i = full_leds ∧ full_leds < e.num_leds then
    lerp_color e.empty_color e.fill_color fractional
  else e.empty_color

/-- `progress.rs` `ProgressEffect::current`: buffer-size check, then every
LED index `i < num_leds` receives its progress pixel. -/
def ProgressEffect.current (e : ProgressEffect) (buffer : List RGB8) : Render :=
  if buffer.length < e.num_leds then
    ⟨.error (.BufferTooSmall e.num_leds buffer.length), buffer⟩
  else
    ⟨.ok (), (List.range e.num_leds).map e.pixel ++ buffer.drop e.num_leds⟩

/-- `progress.rs` `ProgressEffect::update`: same as `current`; progress is
externally driven and `&mut self` is not written. -/
def ProgressEffect.update (e : ProgressEffect) (buffer : List RGB8) : Step ProgressEffect :=
  let r := e.current buffer
  ⟨r.result, e, r.buffer⟩

/-- `palette.rs` `ColorPalette`. -/
structure ColorPalette where
  primary : RGB8
  secondary : RGB8
  accent : RGB8
deriving DecidableEq

/-- `palette.rs` `ColorPalette::mono`. -/
def ColorPalette.mono (color : RGB8) : ColorPalette :=
  ⟨color, color, color⟩

/-- `section.rs` `SectionEffect` state: a fixed array of `MAX_SECTIONS`
entries (modelled as a list of length 8, the construction invariant) and the
active `count`. -/
structure SectionEffect where
  num_leds : Nat
  sections : List (ColorPalette × Nat)
  count : Nat
deriving DecidableEq

/-- `section.rs` `SectionEffect::set_sections`: reject more than
`MAX_SECTIONS` entries, otherwise overwrite the first `input.length` stored
entries and set `count`. -/
def SectionEffect.set_sections (e : SectionEffect) (input : List (ColorPalette × Nat)) :
    Except EffectError Unit × SectionEffect :=
  if MAX_SECTIONS < input.length then
    (.error (.TooManySections input.length MAX_SECTIONS), e)
  else
    (.ok (), { e with sections := input ++ e.sections.drop input.length,
                      count := input.length })

/-- `section.rs` `SectionEffect::clear`. -/
def SectionEffect.clear (e : SectionEffect) : SectionEffect :=
  { e with count := 0 }

/-- The effect of `for led in buffer[led_idx .. led_idx+len] { *led = c }`:
replace `len` entries starting at `start` (truncated at the buffer end, where
the source would instead panic; in-bounds writes coincide). -/
def writeSpan (buf : List RGB8) (start len : Nat) (c : RGB8) : List RGB8 :=
  buf.take start ++ List.replicate (min len (buf.length - start)) c ++ buf.drop (start + len)

/-- The per-section loop of `section.rs` `current`: walking the active
`(weight, palette)` pairs in order, each non-last section paints
`weight * num_leds / total` LEDs and the last section paints
`num_leds - led_idx` LEDs (`i == count-1` in the source is exactly the last
pair of the zipped list). -/
def renderSections (n total : Nat) :
    List (Nat × ColorPalette) → Nat → List RGB8 → List RGB8
  | [], _, buf => buf
  | (w, p) :: rest, led_idx, buf =>
    let len := if rest.isEmpty then n - led_idx else w * n / total
    renderSections n total rest (led_idx + len) (writeSpan buf led_idx len p.primary)

/-- The span lengths the per-section loop of `section.rs` `current` assigns,
in section order (same recursion as `renderSections`, lengths only). -/
def sectionSpanLengths (n total : Nat) : List Nat → Nat → List Nat
  | [], _ => []
  | w :: rest, led_idx =>
    let len := if rest.isEmpty then n - led_idx else w * n / total
    len :: sectionSpanLengths n total rest (led_idx + len)

/-- The effective weights of `section.rs` `current`: the stored weights of
the active sections, or all-1 when their (widened) sum is zero. -/
def SectionEffect.effWeights (e : SectionEffect) : List Nat :=
  let active := e.sections.take e.count
  if (active.map Prod.snd).sum = 0 then List.replicate e.count 1
  else active.map Prod.snd

/-- The effective total weight of `section.rs` `current`: the widened weight
sum, or `count` when that sum is zero. -/
def SectionEffect.effTotal (e : SectionEffect) : Nat :=
  let active := e.sections.take e.count
  if (active.map Prod.snd).sum = 0 then e.count
  else (active.map Prod.snd).sum

/-- `section.rs` `SectionEffect::current`: buffer-size check; with no active
sections fill the first `num_leds` entries black; otherwise run the weighted
per-section loop over the buffer. -/
def SectionEffect.current (e : SectionEffect) (buffer : List RGB8) : Render :=
  if buffer.length < e.num_leds then
    ⟨.error (.BufferTooSmall e.num_leds buffer.length), buffer⟩
  else if e.count = 0 then
    ⟨.ok (), List.replicate e.num_leds black ++ buffer.drop e.num_leds⟩
  else
    let active := e.sections.take e.count
    ⟨.ok (),
      renderSections e.num_leds e.effTotal
        (e.effWeights.zip (active.map Prod.fst)) 0 buffer⟩

/-- `section.rs` `SectionEffect::update`: same as `current`; sections are
externally driven. -/
def SectionEffect.update (e : SectionEffect) (buffer : List RGB8) : Step SectionEffect :=
  let r := e.current buffer
  ⟨r.result, e, r.buffer⟩

/-! ## Helper lemmas -/

/-- Every sine-table value is at most 255, for any phase. -/
theorem sine_wave_le (phase : Nat) : sine_wave phase ≤ 255 := by
  by_cases hp : phase < 256
  · have h : ∀ p, p < 256 → sine_wave p ≤ 255 := by decide
    exact h phase hp
  · have hlen : sineTable.length ≤ phase := by
      have : sineTable.length = 256 := by decide
      omega
    unfold sine_wave
    rw [List.getD_eq_default _ _ hlen]
    exact Nat.zero_le 255

/-! ## C9: anchor values of `hsv_to_rgb` -/

/-- C9: `hsv_to_rgb(0,255,255)` is pure red; zero value is black for every
hue; zero saturation short-circuits to gray `(value,value,value)`. -/
theorem hsv_to_rgb_anchor_values :
    hsv_to_rgb 0 255 255 = ⟨255, 0, 0⟩ ∧
    (∀ hue : Nat, hsv_to_rgb hue 255 0 = ⟨0, 0, 0⟩) ∧
    (∀ hue v : Nat, hsv_to_rgb hue 0 v = ⟨v, v, v⟩) := by
  refine ⟨by decide, fun hue => ?_, fun hue v => rfl⟩
  unfold hsv_to_rgb
  rw [if_neg (by decide)]
  simp only [Nat.zero_mul, Nat.zero_div]
  split_ifs <;> rfl

/-! ## C4: `set_sections` validation and atomic replacement -/

/-- C4: `set_sections` rejects more than `MAX_SECTIONS = 8` entries with
`TooManySections{requested, max}` and leaves the state unchanged; with at
most 8 entries it succeeds, the active prefix becomes exactly the input,
`count` becomes the input length, and the inert tail of the storage array is
untouched. -/
theorem set_sections_spec :
    (∀ (e : SectionEffect) (input : List (ColorPalette × Nat)),
        MAX_SECTIONS < input.length →
        e.set_sections input = (.error (.TooManySections input.length MAX_SECTIONS), e)) ∧
    (∀ (e : SectionEffect) (input : List (ColorPalette × Nat)),
        input.length ≤ MAX_SECTIONS →
        (e.set_sections input).1 = .ok () ∧
        (e.set_sections input).2.count = input.length ∧
        (e.set_sections input).2.sections.take input.length = input ∧
        (e.set_sections input).2.sections.drop input.length = e.sections.drop input.length) := by
  constructor
  · intro e input h
    unfold SectionEffect.set_sections
    rw [if_pos h]
  · intro e input h
    unfold SectionEffect.set_sections
    rw [if_neg (Nat.not_lt.mpr h)]
    exact ⟨rfl, rfl, List.take_left' rfl, List.drop_left' rfl⟩

/-- Witness for C4: a 9-entry input is rejected unchanged; a 2-entry input
replaces the active prefix and count. -/
theorem set_sections_spec_witness :
    (MAX_SECTIONS < (List.replicate 9 (ColorPalette.mono black, 1)).length ∧
      SectionEffect.set_sections ⟨12, List.replicate 8 (ColorPalette.mono black, 0), 0⟩
          (List.replicate 9 (ColorPalette.mono black, 1)) =
        (.error (.TooManySections 9 8),
          ⟨12, List.replicate 8 (ColorPalette.mono black, 0), 0⟩)) ∧
    ((List.replicate 2 (ColorPalette.mono ⟨255, 0, 0⟩, 3)).length ≤ MAX_SECTIONS ∧
      (SectionEffect.set_sections ⟨12, List.replicate 8 (ColorPalette.mono black, 0), 0⟩
          (List.replicate 2 (ColorPalette.mono ⟨255, 0, 0⟩, 3))).2.count = 2) := by
  refine ⟨⟨by decide, ?_⟩, by decide, ?_⟩
  · exact set_sections_spec.1 _ _ (by decide)
  · exact (set_sections_spec.2 _ _ (by decide)).2.1

/-! ## C2: `update` on a too-small buffer fails like `current` and leaves
state untouched -/

/-- C2: for each of the seven effects, with `buffer.len() < num_leds` both
`update` and `current` return `BufferTooSmall{required: num_leds, actual:
buffer.len()}`, and the failed `update` leaves the effect state (and the
buffer) unchanged. -/
theorem update_buffer_too_small_preserves_state :
    (∀ (e : RainbowEffect) (buf : List RGB8), buf.length < e.num_leds →
      e.update buf = ⟨.error (.BufferTooSmall e.num_leds buf.length), e, buf⟩ ∧
      e.current buf = ⟨.error (.BufferTooSmall e.num_leds buf.length), buf⟩) ∧
    (∀ (e : PulseEffect) (buf : List RGB8), buf.length < e.num_leds →
      e.update buf = ⟨.error (.BufferTooSmall e.num_leds buf.length), e, buf⟩ ∧
      e.current buf = ⟨.error (.BufferTooSmall e.num_leds buf.length), buf⟩) ∧
    (∀ (e : SpinnerEffect) (buf : List RGB8), buf.length < e.num_leds →
      e.update buf = ⟨.error (.BufferTooSmall e.num_leds buf.length), e, buf⟩ ∧
      e.current buf = ⟨.error (.BufferTooSmall e.num_leds buf.length), buf⟩) ∧
    (∀ (e : ChaseEffect) (buf : List RGB8), buf.length < e.num_leds →
      e.update buf = ⟨.error (.BufferTooSmall e.num_leds buf.length), e, buf⟩ ∧
      e.current buf = ⟨.error (.BufferTooSmall e.num_leds buf.length), buf⟩) ∧
    (∀ (e : FlashEffect) (buf : List RGB8), buf.length < e.num_leds →
      e.update buf = ⟨.error (.BufferTooSmall e.num_leds buf.length), e, buf⟩ ∧
      e.current buf = ⟨.error (.BufferTooSmall e.num_leds buf.length), buf⟩) ∧
    (∀ (e : ProgressEffect) (buf : List RGB8), buf.length < e.num_leds →
      e.update buf = ⟨.error (.BufferTooSmall e.num_leds buf.length), e, buf⟩ ∧
      e.current buf = ⟨.error (.BufferTooSmall e.num_leds buf.length), buf⟩) ∧
    (∀ (e : SectionEffect) (buf : List RGB8), buf.length < e.num_leds →
      e.update buf = ⟨.error (.BufferTooSmall e.num_leds buf.length), e, buf⟩ ∧
      e.current buf = ⟨.error (.BufferTooSmall e.num_leds buf.length), buf⟩) := by
  refine ⟨fun e buf h => ?_, fun e buf h => ?_, fun e buf h => ?_, fun e buf h => ?_,
    fun e buf h => ?_, fun e buf h => ?_, fun e buf h => ?_⟩
  · have hc : e.current buf = ⟨.error (.BufferTooSmall e.num_leds buf.length), buf⟩ := by
      unfold RainbowEffect.current; rw [if_pos h]
    exact ⟨by unfold RainbowEffect.update; rw [hc], hc⟩
  · have hc : e.current buf = ⟨.error (.BufferTooSmall e.num_leds buf.length), buf⟩ := by
      unfold PulseEffect.current; rw [if_pos h]
    exact ⟨by unfold PulseEffect.update; rw [hc], hc⟩
  · have hc : e.current buf = ⟨.error (.BufferTooSmall e.num_leds buf.length), buf⟩ := by
      unfold SpinnerEffect.current; rw [if_pos h]
    exact ⟨by unfold SpinnerEffect.update; rw [hc], hc⟩
  · have hc : e.current buf = ⟨.error (.BufferTooSmall e.num_leds buf.length), buf⟩ := by
      unfold ChaseEffect.current; rw [if_pos h]
    exact ⟨by unfold ChaseEffect.update; rw [hc], hc⟩
  · have hc : e.current buf = ⟨.error (.BufferTooSmall e.num_leds buf.length), buf⟩ := by
      unfold FlashEffect.current; rw [if_pos h]
    exact ⟨by unfold FlashEffect.update; rw [hc], hc⟩
  · have hc : e.current buf = ⟨.error (.BufferTooSmall e.num_leds buf.length), buf⟩ := by
      unfold ProgressEffect.current; rw [if_pos h]
    exact ⟨by unfold ProgressEffect.update; rw [hc], hc⟩
  · have hc : e.current buf = ⟨.error (.BufferTooSmall e.num_leds buf.length), buf⟩ := by
      unfold SectionEffect.current; rw [if_pos h]
    exact ⟨by unfold SectionEffect.update; rw [hc], hc⟩

/-- Witness for C2: each of the seven effects, configured for 12 LEDs and
handed an empty buffer, fails with `BufferTooSmall{12, 0}` with its state
intact. -/
theorem update_buffer_too_small_witness :
    (([] : List RGB8).length < 12 ∧
      RainbowEffect.update ⟨12, 0, 1, 255, 255, .Clockwise⟩ [] =
        ⟨.error (.BufferTooSmall 12 0), ⟨12, 0, 1, 255, 255, .Clockwise⟩, []⟩) ∧
    (PulseEffect.update ⟨12, ⟨255, 255, 255⟩, 0, 2, 0, 255⟩ [] =
        ⟨.error (.BufferTooSmall 12 0), ⟨12, ⟨255, 255, 255⟩, 0, 2, 0, 255⟩, []⟩) ∧
    (SpinnerEffect.update ⟨12, ⟨255, 255, 255⟩, 0, 1, 2, .Clockwise⟩ [] =
        ⟨.error (.BufferTooSmall 12 0), ⟨12, ⟨255, 255, 255⟩, 0, 1, 2, .Clockwise⟩, []⟩) ∧
    (ChaseEffect.update ⟨12, ⟨255, 255, 255⟩, 0, 1, 3, .Clockwise⟩ [] =
        ⟨.error (.BufferTooSmall 12 0), ⟨12, ⟨255, 255, 255⟩, 0, 1, 3, .Clockwise⟩, []⟩) ∧
    (FlashEffect.update ⟨12, ⟨255, 255, 255⟩, black, 4, 4, 0⟩ [] =
        ⟨.error (.BufferTooSmall 12 0), ⟨12, ⟨255, 255, 255⟩, black, 4, 4, 0⟩, []⟩) ∧
    (ProgressEffect.update ⟨12, ⟨0, 255, 0⟩, black, 0⟩ [] =
        ⟨.error (.BufferTooSmall 12 0), ⟨12, ⟨0, 255, 0⟩, black, 0⟩, []⟩) ∧
    (SectionEffect.update ⟨12, List.replicate 8 (ColorPalette.mono black, 0), 0⟩ [] =
        ⟨.error (.BufferTooSmall 12 0), ⟨12, List.replicate 8 (ColorPalette.mono black, 0), 0⟩,
          []⟩) := by
  refine ⟨⟨by decide, ?_⟩, ?_, ?_, ?_, ?_, ?_, ?_⟩
  · exact (update_buffer_too_small_preserves_state.1 _ _ (by decide)).1
  · exact (update_buffer_too_small_preserves_state.2.1 _ _ (by decide)).1
  · exact (update_buffer_too_small_preserves_state.2.2.1 _ _ (by decide)).1
  · exact (update_buffer_too_small_preserves_state.2.2.2.1 _ _ (by decide)).1
  · exact (update_buffer_too_small_preserves_state.2.2.2.2.1 _ _ (by decide)).1
  · exact (update_buffer_too_small_preserves_state.2.2.2.2.2.1 _ _ (by decide)).1
  · exact (update_buffer_too_small_preserves_state.2.2.2.2.2.2 _ _ (by decide)).1

/-! ## C10: pulse brightness range under `min ≤ max` -/

/-- C10: when `min_brightness ≤ max_brightness` (both 8-bit), the `u16`
subtraction in `current_brightness` does not underflow (it equals the plain
difference) and the resulting brightness lies in `[min_brightness,
max_brightness]` for every phase; when `min_brightness > max_brightness` the
`u16` subtraction wraps to a value above 255, so the precondition is
load-bearing (the setters validate nothing). -/
theorem pulse_current_brightness_in_range :
    (∀ e : PulseEffect,
        e.min_brightness ≤ e.max_brightness → e.max_brightness ≤ 255 →
        wsub16 e.max_brightness e.min_brightness = e.max_brightness - e.min_brightness ∧
        e.min_brightness ≤ e.current_brightness ∧
        e.current_brightness ≤ e.max_brightness) ∧
    (∀ mn mx : Nat, mx < mn → mn ≤ 255 → 255 < wsub16 mx mn) := by
  constructor
  · intro e hle hmax
    have hsub : wsub16 e.max_brightness e.min_brightness
        = e.max_brightness - e.min_brightness := by
      unfold wsub16; omega
    refine ⟨hsub, ?_⟩
    have hsine : sine_wave e.phase ≤ 255 := sine_wave_le e.phase
    have hscale : sine_wave e.phase * (e.max_brightness - e.min_brightness) / 255
        ≤ e.max_brightness - e.min_brightness := by
      have h1 : sine_wave e.phase * (e.max_brightness - e.min_brightness)
          ≤ 255 * (e.max_brightness - e.min_brightness) :=
        Nat.mul_le_mul_right _ hsine
      have h2 := Nat.div_le_div_right (c := 255) h1
      rwa [Nat.mul_div_cancel_left _ (by norm_num)] at h2
    unfold PulseEffect.current_brightness
    rw [hsub]
    have hin : e.min_brightness + sine_wave e.phase *
        (e.max_brightness - e.min_brightness) / 255 ≤ e.max_brightness := by omega
    rw [Nat.mod_eq_of_lt (by omega)]
    omega
  · intro mn mx h1 h2
    unfold wsub16; omega

/-- Witness for C10: a pulse with `min = 10`, `max = 200` stays within
`[10, 200]`; swapping them makes the 16-bit range wrap past 255. -/
theorem pulse_current_brightness_witness :
    ((10 : Nat) ≤ 200 ∧ (200 : Nat) ≤ 255 ∧
      10 ≤ PulseEffect.current_brightness ⟨12, ⟨255, 255, 255⟩, 64, 2, 10, 200⟩) ∧
    ((10 : Nat) < 200 ∧ (200 : Nat) ≤ 255 ∧ 255 < wsub16 10 200) := by
  refine ⟨⟨by decide, by decide, ?_⟩, by decide, by decide, ?_⟩
  · exact (pulse_current_brightness_in_range.1 ⟨12, ⟨255, 255, 255⟩, 64, 2, 10, 200⟩
      (by decide) (by decide)).2.1
  · exact pulse_current_brightness_in_range.2 200 10 (by decide) (by decide)

/-! ## C7: spinner tail fade -/

/-- The `as u8` cast in the tail brightness is lossless: the quotient is at
most 255. -/
theorem spinnerTailBrightness_eq (tail i : Nat) :
    spinnerTailBrightness tail i = 255 * (tail + 1 - i) / (tail + 1) := by
  unfold spinnerTailBrightness
  have h1 : 255 * (tail + 1 - i) ≤ 255 * (tail + 1) := Nat.mul_le_mul_left _ (by omega)
  have h2 := Nat.div_le_div_right (c := tail + 1) h1
  rw [Nat.mul_div_cancel _ (by omega)] at h2
  exact Nat.mod_eq_of_lt (by omega)

/-- Closed form of `255 * k / 256` for `1 ≤ k ≤ 256`. -/
theorem div_255_mul_by_256 (k : Nat) (hk1 : 1 ≤ k) (hk2 : k ≤ 256) :
    255 * k / 256 = k - 1 := by
  have h : 255 * k = 256 * (k - 1) + (256 - k) := by omega
  rw [h, Nat.mul_add_div (by norm_num), Nat.div_eq_of_lt (by omega)]
  omega

/-- C7 (amended): for `1 ≤ tail_length ≤ 255` the tail brightnesses
`255*(total-i)/total` computed by `SpinnerEffect::current` are strictly
decreasing in the distance `i` from the head; the last tail pixel is nonzero
provided `tail_length ≤ 254` (at `tail_length = 255` it is exactly 0). -/
theorem spinner_tail_strict_fade (tail : Nat) (h1 : 1 ≤ tail) (h2 : tail ≤ 255) :
    (∀ i, 1 ≤ i → i < tail →
      spinnerTailBrightness tail (i + 1) < spinnerTailBrightness tail i) ∧
    (tail ≤ 254 → 1 ≤ spinnerTailBrightness tail tail) := by
  constructor
  · intro i hi1 hi2
    rw [spinnerTailBrightness_eq, spinnerTailBrightness_eq]
    by_cases ht : tail ≤ 254
    · rw [Nat.lt_iff_add_one_le, Nat.le_div_iff_mul_le (show 0 < tail + 1 by omega)]
      have hq := Nat.div_mul_le_self (255 * (tail + 1 - (i + 1))) (tail + 1)
      calc (255 * (tail + 1 - (i + 1)) / (tail + 1) + 1) * (tail + 1)
          = 255 * (tail + 1 - (i + 1)) / (tail + 1) * (tail + 1) + (tail + 1) := by ring
        _ ≤ 255 * (tail + 1 - (i + 1)) + (tail + 1) := Nat.add_le_add_right hq _
        _ ≤ 255 * (tail + 1 - i) := by omega
    · have ht' : tail = 255 := by omega
      subst ht'
      have e1 : (255 : Nat) + 1 = 256 := rfl
      rw [e1, div_255_mul_by_256 _ (by omega) (by omega),
        div_255_mul_by_256 _ (by omega) (by omega)]
      omega
  · intro ht
    rw [spinnerTailBrightness_eq]
    have hsub : tail + 1 - tail = 1 := by omega
    rw [hsub, Nat.mul_one, Nat.le_div_iff_mul_le (show 0 < tail + 1 by omega)]
    omega

/-- Counterexample for C7 as stated: at `tail_length = 255` (within the
claimed domain `tail_length ≥ 1`) the last tail brightness is
`255 * 1 / 256 = 0`, so the last tail pixel is black, not nonzero. -/
theorem spinner_tail_nonzero_counterexample :
    1 ≤ (255 : Nat) ∧ spinnerTailBrightness 255 255 = 0 ∧
    scale_brightness ⟨255, 255, 255⟩ (spinnerTailBrightness 255 255) = black := by
  decide

/-- Witness for C7 (amended) at `tail_length = 3`: brightness at distance 2
is below distance 1, and the last tail pixel is nonzero. -/
theorem spinner_tail_strict_fade_witness :
    1 ≤ (3 : Nat) ∧ (3 : Nat) ≤ 255 ∧ 1 ≤ (1 : Nat) ∧ (1 : Nat) < 3 ∧ (3 : Nat) ≤ 254 ∧
    spinnerTailBrightness 3 2 < spinnerTailBrightness 3 1 ∧
    1 ≤ spinnerTailBrightness 3 3 := by
  refine ⟨by decide, by decide, by decide, by decide, by decide, ?_, ?_⟩
  · exact (spinner_tail_strict_fade 3 (by decide) (by decide)).1 1 (by decide) (by decide)
  · exact (spinner_tail_strict_fade 3 (by decide) (by decide)).2 (by decide)

/-! ## C8: flash counter cycle -/

/-- Iterating `FlashEffect::update` on an adequate buffer from a zeroed
counter: when the cycle length is at most 256, the counter is `t mod
(on_ticks + off_ticks)` after `t` ticks (the `as u8` cast never truncates). -/
theorem flash_iterate_counter (e : FlashEffect) (buf : List RGB8)
    (hb : e.num_leds ≤ buf.length) (h2 : 2 ≤ e.on_ticks + e.off_ticks)
    (h256 : e.on_ticks + e.off_ticks ≤ 256) (h0 : e.counter = 0) (t : Nat) :
    (fun s => (FlashEffect.update s buf).state)^[t] e
      = { e with counter := t % (e.on_ticks + e.off_ticks) } := by
  obtain ⟨n, c, oc, onT, offT, cnt⟩ := e
  dsimp only at hb h2 h256 h0 ⊢
  subst h0
  induction t with
  | zero => simp
  | succ k ih =>
    rw [Function.iterate_succ_apply', ih]
    show (FlashEffect.update ⟨n, c, oc, onT, offT, k % (onT + offT)⟩ buf).state = _
    unfold FlashEffect.update FlashEffect.current
    rw [if_neg (Nat.not_lt.mpr hb)]
    dsimp only
    congr 1
    have h1 : 1 % (onT + offT) = 1 := Nat.mod_eq_of_lt (by omega)
    have hmod : (k % (onT + offT) + 1) % (onT + offT) = (k + 1) % (onT + offT) := by
      rw [Nat.add_mod k 1, h1]
    rw [hmod]
    exact Nat.mod_eq_of_lt (lt_of_lt_of_le (Nat.mod_lt _ (by omega)) h256)

/-- C8 (amended): after `t` successful updates from a zeroed counter the
counter equals `t mod (on_ticks + off_ticks)` provided the cycle length
`on_ticks + off_ticks` is at most 256 (beyond that the `as u8` cast
truncates); `is_on()` holds exactly when `counter < on_ticks`; and with
`on_ticks = 2`, `off_ticks = 3` the `is_on()` sequence is
`true,true,false,false,false`, repeating. -/
theorem flash_counter_cycle :
    (∀ (e : FlashEffect) (buf : List RGB8) (t : Nat),
        e.counter = 0 → 1 ≤ e.on_ticks → 1 ≤ e.off_ticks →
        e.on_ticks + e.off_ticks ≤ 256 → e.num_leds ≤ buf.length →
        ((fun s => (FlashEffect.update s buf).state)^[t] e).counter
          = t % (e.on_ticks + e.off_ticks)) ∧
    (∀ e : FlashEffect, e.is_on = true ↔ e.counter < e.on_ticks) ∧
    ((List.range 10).map (fun t =>
        ((fun s => (FlashEffect.update s (List.replicate 4 black)).state)^[t]
          (⟨4, ⟨255, 255, 255⟩, black, 2, 3, 0⟩ : FlashEffect)).is_on)
      = [true, true, false, false, false, true, true, false, false, false]) := by
  refine ⟨?_, fun e => by simp [FlashEffect.is_on], by decide⟩
  intro e buf t h0 hm hk hc hb
  rw [flash_iterate_counter e buf hb (by omega) hc h0 t]

/-- Iterating `FlashEffect::update` with a cycle length above 256: the
`as u8` cast makes the counter wrap at 256 instead of at the cycle length. -/
theorem flash_iterate_counter_big (e : FlashEffect) (buf : List RGB8)
    (hb : e.num_leds ≤ buf.length) (hbig : 257 ≤ e.on_ticks + e.off_ticks)
    (h0 : e.counter = 0) (t : Nat) :
    (fun s => (FlashEffect.update s buf).state)^[t] e
      = { e with counter := t % 256 } := by
  obtain ⟨n, c, oc, onT, offT, cnt⟩ := e
  dsimp only at hb hbig h0 ⊢
  subst h0
  induction t with
  | zero => simp
  | succ k ih =>
    rw [Function.iterate_succ_apply', ih]
    show (FlashEffect.update ⟨n, c, oc, onT, offT, k % 256⟩ buf).state = _
    unfold FlashEffect.update FlashEffect.current
    rw [if_neg (Nat.not_lt.mpr hb)]
    dsimp only
    congr 1
    have hlt : k % 256 + 1 < onT + offT := by
      have := Nat.mod_lt k (show 0 < 256 by norm_num)
      omega
    rw [Nat.mod_eq_of_lt hlt]
    conv_rhs => rw [Nat.add_mod k 1]

/-- Counterexample for C8 as stated: with `on_ticks = 255`, `off_ticks = 2`
(cycle length 257 > 256) the claim predicts counter `256 mod 257 = 256`
after 256 updates, but the `as u8` cast wraps the counter to 0. -/
theorem flash_counter_cycle_counterexample :
    ((fun s => (FlashEffect.update s [black]).state)^[256]
        (⟨1, ⟨255, 255, 255⟩, black, 255, 2, 0⟩ : FlashEffect)).counter = 0 ∧
    (256 : Nat) % (255 + 2) = 256 ∧
    ¬ ((fun s => (FlashEffect.update s [black]).state)^[256]
          (⟨1, ⟨255, 255, 255⟩, black, 255, 2, 0⟩ : FlashEffect)).counter
        = 256 % (255 + 2) := by
  have h := flash_iterate_counter_big ⟨1, ⟨255, 255, 255⟩, black, 255, 2, 0⟩ [black]
    (by decide) (by decide) rfl 256
  rw [h]
  exact ⟨rfl, rfl, by decide⟩

/-- Witness for C8 (amended): the duty-2/3 flash after 7 ticks sits at
counter `7 mod 5 = 2`. -/
theorem flash_counter_cycle_witness :
    ((⟨4, ⟨255, 255, 255⟩, black, 2, 3, 0⟩ : FlashEffect).counter = 0 ∧
      1 ≤ (2 : Nat) ∧ 1 ≤ (3 : Nat) ∧ (2 : Nat) + 3 ≤ 256 ∧
      (4 : Nat) ≤ (List.replicate 4 black).length) ∧
    ((fun s => (FlashEffect.update s (List.replicate 4 black)).state)^[7]
        (⟨4, ⟨255, 255, 255⟩, black, 2, 3, 0⟩ : FlashEffect)).counter = 7 % (2 + 3) := by
  refine ⟨⟨rfl, by decide, by decide, by decide, by decide⟩, ?_⟩
  exact flash_counter_cycle.1 ⟨4, ⟨255, 255, 255⟩, black, 2, 3, 0⟩
    (List.replicate 4 black) 7 rfl (by decide) (by decide) (by decide) (by decide)

/-! ## C5: rainbow pixel formula and hue advance -/

/-- Reading index `i < n` of a buffer whose first `n` entries were rewritten
to `f 0, …, f (n-1)`. -/
theorem getD_prefix_map_range {α : Type} (f : Nat → α) (n i : Nat) (rest : List α)
    (d : α) (h : i < n) :
    ((List.range n).map f ++ rest).getD i d = f i := by
  rw [List.getD_eq_getElem?_getD,
    List.getElem?_append_left (by simpa using h), List.getElem?_map,
    List.getElem?_range h]
  rfl

/-- C5: `RainbowEffect::current` sets pixel `i` to
`hsv_to_rgb(((i*256)/num_leds + hue_offset) mod 256, saturation, brightness)`
(the widened multiply-before-divide), and `update` adds (`Clockwise`) or
subtracts (`CounterClockwise`) `speed` to/from `hue_offset` modulo 256; the
final conjunct characterizes the wrapping subtraction as the mod-256 inverse
of adding `speed`. -/
theorem rainbow_pixel_and_update :
    (∀ (e : RainbowEffect) (buf : List RGB8), e.num_leds ≤ buf.length →
      ∀ i, i < e.num_leds →
        (e.current buf).buffer.getD i black =
          hsv_to_rgb ((i * 256 / e.num_leds + e.hue_offset) % 256)
            e.saturation e.brightness) ∧
    (∀ (e : RainbowEffect) (buf : List RGB8), e.num_leds ≤ buf.length →
      e.direction = .Clockwise →
      (e.update buf).state = { e with hue_offset := (e.hue_offset + e.speed) % 256 }) ∧
    (∀ (e : RainbowEffect) (buf : List RGB8), e.num_leds ≤ buf.length →
      e.direction = .CounterClockwise →
      (e.update buf).state
        = { e with hue_offset := (e.hue_offset + (256 - e.speed % 256)) % 256 }) ∧
    (∀ offset speed : Nat, offset < 256 → speed < 256 →
      (wsub8 offset speed + speed) % 256 = offset) := by
  refine ⟨?_, ?_, ?_, ?_⟩
  · intro e buf hb i hi
    unfold RainbowEffect.current
    rw [if_neg (Nat.not_lt.mpr hb)]
    dsimp only
    rw [getD_prefix_map_range _ _ _ _ _ hi]
    unfold RainbowEffect.pixel wadd8
    rw [Nat.mod_add_mod]
  · intro e buf hb hdir
    unfold RainbowEffect.update RainbowEffect.current
    rw [if_neg (Nat.not_lt.mpr hb)]
    dsimp only
    rw [hdir]
    rfl
  · intro e buf hb hdir
    unfold RainbowEffect.update RainbowEffect.current
    rw [if_neg (Nat.not_lt.mpr hb)]
    dsimp only
    rw [hdir]
    rfl
  · intro offset speed h1 h2
    unfold wsub8
    omega

/-- Witness for C5: a 6-LED rainbow with offset 10, pixel 2, and a clockwise
update at speed 30. -/
theorem rainbow_pixel_and_update_witness :
    (6 : Nat) ≤ (List.replicate 6 black).length ∧ (2 : Nat) < 6 ∧
    (RainbowEffect.current ⟨6, 10, 30, 255, 255, .Clockwise⟩
        (List.replicate 6 black)).buffer.getD 2 black
      = hsv_to_rgb ((2 * 256 / 6 + 10) % 256) 255 255 ∧
    (RainbowEffect.update ⟨6, 10, 30, 255, 255, .Clockwise⟩
        (List.replicate 6 black)).state
      = ⟨6, (10 + 30) % 256, 30, 255, 255, .Clockwise⟩ := by
  refine ⟨by decide, by decide, ?_, ?_⟩
  · exact rainbow_pixel_and_update.1 ⟨6, 10, 30, 255, 255, .Clockwise⟩ _ (by decide)
      2 (by decide)
  · exact rainbow_pixel_and_update.2.1 ⟨6, 10, 30, 255, 255, .Clockwise⟩ _ (by decide) rfl

/-! ## C6: progress rendering -/

/-- Weak betweenness of each channel of `x` relative to `a` and `b`. -/
def channelsBetween (a x b : RGB8) : Prop :=
  min a.r b.r ≤ x.r ∧ x.r ≤ max a.r b.r ∧
  min a.g b.g ≤ x.g ∧ x.g ≤ max a.g b.g ∧
  min a.b b.b ≤ x.b ∧ x.b ≤ max a.b b.b

instance (a x b : RGB8) : Decidable (channelsBetween a x b) := by
  unfold channelsBetween; infer_instance

/-- Strict betweenness of one channel, as the claim asserts for the blended
progress pixel. -/
def strictlyChannelBetween (a x b : Nat) : Prop :=
  (a < x ∧ x < b) ∨ (b < x ∧ x < a)

instance (a x b : Nat) : Decidable (strictlyChannelBetween a x b) := by
  unfold strictlyChannelBetween; infer_instance

/-- One interpolation channel at `t = 0` returns the first endpoint. -/
theorem lerp_channel_zero (c d : Nat) : (c * (255 - 0) + d * 0) / 255 = c := by
  rw [Nat.sub_zero, Nat.mul_zero, Nat.add_zero,
    Nat.mul_div_cancel _ (by norm_num : (0 : Nat) < 255)]

/-- `lerp_color a b 0 = a` (exactly, no rounding). -/
theorem lerp_color_zero (a b : RGB8) : lerp_color a b 0 = a := by
  obtain ⟨ar, ag, ab⟩ := a
  obtain ⟨br, bg, bb⟩ := b
  unfold lerp_color
  rw [lerp_channel_zero, lerp_channel_zero, lerp_channel_zero]

/-- One interpolation channel lies weakly between its endpoints for
`t ≤ 255`. -/
theorem lerp_channel_between (c d t : Nat) (ht : t ≤ 255) :
    min c d ≤ (c * (255 - t) + d * t) / 255 ∧ (c * (255 - t) + d * t) / 255 ≤ max c d := by
  constructor
  · have h1 : min c d * 255 = min c d * (255 - t) + min c d * t := by
      rw [← Nat.mul_add]
      congr 1
      omega
    have h2 : min c d * 255 ≤ c * (255 - t) + d * t := by
      rw [h1]
      exact Nat.add_le_add (Nat.mul_le_mul_right _ (Nat.min_le_left c d))
        (Nat.mul_le_mul_right _ (Nat.min_le_right c d))
    have h3 := Nat.div_le_div_right (c := 255) h2
    rwa [Nat.mul_div_cancel _ (by norm_num : (0 : Nat) < 255)] at h3
  · have h1 : max c d * (255 - t) + max c d * t = max c d * 255 := by
      rw [← Nat.mul_add]
      congr 1
      omega
    have h2 : c * (255 - t) + d * t ≤ max c d * 255 := by
      rw [← h1]
      exact Nat.add_le_add (Nat.mul_le_mul_right _ (Nat.le_max_left c d))
        (Nat.mul_le_mul_right _ (Nat.le_max_right c d))
    have h3 := Nat.div_le_div_right (c := 255) h2
    rwa [Nat.mul_div_cancel _ (by norm_num : (0 : Nat) < 255)] at h3

/-- The `fractional` computed by `ProgressEffect::current` is just
`fill_256 mod 255`: the `* 255 / 255` round-trip and the `as u8` cast are
lossless. -/
theorem progress_fractional_eq (x : Nat) (h : x < 255) : x * 255 / 255 % 256 = x := by
  rw [Nat.mul_div_cancel _ (by norm_num : (0 : Nat) < 255)]
  exact Nat.mod_eq_of_lt (by omega)

/-- C6 (amended): at `progress = 0` every LED is `empty_color`; at
`progress = 255` every LED is `fill_color`; at intermediate progress, LEDs
before `fill_256/255` are `fill_color`, LEDs after it are `empty_color`, the
boundary index is below `num_leds` (when `num_leds ≥ 1`), and the LED at
the boundary is `lerp_color(empty, fill, fill_256 mod 255)`, whose channels
lie weakly (not necessarily strictly) between the endpoints' channels. -/
theorem progress_render_spec (e : ProgressEffect) (buf : List RGB8)
    (hb : e.num_leds ≤ buf.length) :
    (e.current buf).result = .ok () ∧
    (e.progress = 0 →
      ∀ i, i < e.num_leds → (e.current buf).buffer.getD i black = e.empty_color) ∧
    (e.progress = 255 →
      ∀ i, i < e.num_leds → (e.current buf).buffer.getD i black = e.fill_color) ∧
    (0 < e.progress → e.progress < 255 →
      (1 ≤ e.num_leds → e.progress * e.num_leds / 255 < e.num_leds) ∧
      (∀ i, i < e.progress * e.num_leds / 255 →
        (e.current buf).buffer.getD i black = e.fill_color) ∧
      (∀ i, e.progress * e.num_leds / 255 < i → i < e.num_leds →
        (e.current buf).buffer.getD i black = e.empty_color) ∧
      (e.progress * e.num_leds / 255 < e.num_leds →
        (e.current buf).buffer.getD (e.progress * e.num_leds / 255) black
            = lerp_color e.empty_color e.fill_color (e.progress * e.num_leds % 255) ∧
        channelsBetween e.empty_color
          ((e.current buf).buffer.getD (e.progress * e.num_leds / 255) black)
          e.fill_color)) := by
  have hcur : ∀ i, i < e.num_leds →
      (e.current buf).buffer.getD i black = e.pixel i := by
    intro i hi
    unfold ProgressEffect.current
    rw [if_neg (Nat.not_lt.mpr hb)]
    dsimp only
    exact getD_prefix_map_range _ _ _ _ _ hi
  refine ⟨?_, ?_, ?_, ?_⟩
  · unfold ProgressEffect.current
    rw [if_neg (Nat.not_lt.mpr hb)]
  · intro hp i hi
    rw [hcur i hi]
    simp only [ProgressEffect.pixel, hp, Nat.zero_mul, Nat.zero_div, Nat.zero_mod]
    split_ifs with h1 h2
    · exact absurd h1 (Nat.not_lt_zero i)
    · exact lerp_color_zero _ _
    · rfl
  · intro hp i hi
    rw [hcur i hi]
    have h255 : 255 * e.num_leds / 255 = e.num_leds :=
      Nat.mul_div_cancel_left _ (by norm_num)
    have hlt : i < 255 * e.num_leds / 255 := by rw [h255]; exact hi
    simp only [ProgressEffect.pixel, hp]
    rw [if_pos hlt]
  · intro hp0 hp255
    have hfull_le : e.progress * e.num_leds / 255 ≤ e.num_leds := by
      have h1 : e.progress * e.num_leds ≤ 255 * e.num_leds :=
        Nat.mul_le_mul_right _ (by omega)
      have h2 := Nat.div_le_div_right (c := 255) h1
      rwa [Nat.mul_div_cancel_left _ (by norm_num : (0 : Nat) < 255)] at h2
    refine ⟨?_, ?_, ?_, ?_⟩
    · intro hn
      rw [Nat.div_lt_iff_lt_mul (by norm_num : (0 : Nat) < 255)]
      calc e.progress * e.num_leds < 255 * e.num_leds :=
            (Nat.mul_lt_mul_right hn).mpr hp255
        _ = e.num_leds * 255 := Nat.mul_comm _ _
    · intro i hi
      rw [hcur i (by omega)]
      simp only [ProgressEffect.pixel]
      rw [if_pos hi]
    · intro i hgt hin
      rw [hcur i hin]
      simp only [ProgressEffect.pixel]
      rw [if_neg (by omega), if_neg ?hne]
      case hne =>
        rintro ⟨h1, -⟩
        omega
    · intro hfl
      rw [hcur _ hfl]
      simp only [ProgressEffect.pixel]
      rw [if_neg (lt_irrefl _), if_pos ⟨by trivial, hfl⟩,
        progress_fractional_eq _ (Nat.mod_lt _ (by norm_num))]
      refine ⟨by trivial, ?_⟩
      have ht : e.progress * e.num_leds % 255 ≤ 255 :=
        Nat.le_of_lt (Nat.mod_lt _ (by norm_num))
      obtain ⟨er, eg, eb⟩ := e.empty_color
      obtain ⟨fr, fg, fb⟩ := e.fill_color
      exact ⟨(lerp_channel_between _ _ _ ht).1, (lerp_channel_between _ _ _ ht).2,
        (lerp_channel_between _ _ _ ht).1, (lerp_channel_between _ _ _ ht).2,
        (lerp_channel_between _ _ _ ht).1, (lerp_channel_between _ _ _ ht).2⟩

/-- Counterexample for C6 as stated: a 1-LED progress bar at `progress = 1`
(intermediate) with the default colors (fill green, empty black) blends the
boundary pixel to `(0,1,0)`; its red channel equals both endpoints' red
channels (0), so it is not strictly between them. -/
theorem progress_strict_blend_counterexample :
    (0 : Nat) < 1 ∧ (1 : Nat) < 255 ∧
    (ProgressEffect.current ⟨1, ⟨0, 255, 0⟩, black, 1⟩ [black]).result = .ok () ∧
    (ProgressEffect.current ⟨1, ⟨0, 255, 0⟩, black, 1⟩ [black]).buffer.getD 0 black
      = ⟨0, 1, 0⟩ ∧
    ¬ strictlyChannelBetween (black.r)
        ((ProgressEffect.current ⟨1, ⟨0, 255, 0⟩, black, 1⟩ [black]).buffer.getD 0 black).r
        ((⟨0, 255, 0⟩ : RGB8).r) := by
  decide

/-- Witness for C6 (amended): the 4-LED progress bar at `progress = 96`
renders successfully and its boundary pixel is the documented blend. -/
theorem progress_render_spec_witness :
    (4 : Nat) ≤ (List.replicate 4 black).length ∧
    (ProgressEffect.current ⟨4, ⟨255, 0, 0⟩, black, 96⟩ (List.replicate 4 black)).result
      = .ok () := by
  exact ⟨by decide,
    (progress_render_spec ⟨4, ⟨255, 0, 0⟩, black, 96⟩ (List.replicate 4 black)
      (by decide)).1⟩

/-! ## C1: section span partition -/

/-- `writeSpan` preserves the buffer length. -/
theorem writeSpan_length (buf : List RGB8) (start len : Nat) (c : RGB8) :
    (writeSpan buf start len c).length = buf.length := by
  unfold writeSpan
  simp only [List.length_append, List.length_take, List.length_replicate,
    List.length_drop]
  omega

/-- In-bounds `writeSpan` is take/replicate/drop. -/
theorem writeSpan_eq (buf : List RGB8) (start len : Nat) (c : RGB8)
    (h : start + len ≤ buf.length) :
    writeSpan buf start len c
      = buf.take start ++ List.replicate len c ++ buf.drop (start + len) := by
  unfold writeSpan
  rw [Nat.min_eq_left (by omega)]

/-- Dropping past an appended prefix. -/
theorem drop_append_plus {α : Type} (a b : List α) (k : Nat) :
    (a ++ b).drop (a.length + k) = b.drop k := by
  rw [← List.drop_drop, List.drop_left]

/-- Summed floors against a common divisor stay below the sum. -/
theorem sum_div_mul_le (t : Nat) (xs : List Nat) :
    ((xs.map (fun x => x / t)).sum) * t ≤ xs.sum := by
  induction xs with
  | nil => simp
  | cons a l ih =>
    simp only [List.map_cons, List.sum_cons]
    calc (a / t + (l.map (fun x => x / t)).sum) * t
        = a / t * t + ((l.map (fun x => x / t)).sum) * t := by ring
      _ ≤ a + l.sum := Nat.add_le_add (Nat.div_mul_le_self a t) ih

/-- Sum of a list scaled pointwise. -/
theorem sum_map_mul (n : Nat) (xs : List Nat) :
    (xs.map (fun x => x * n)).sum = xs.sum * n := by
  induction xs with
  | nil => simp
  | cons a l ih => simp [ih, Nat.add_mul]

/-- Key bound for the section loop: if the weights sum to at most `total`,
the floors `w * n / total` sum to at most `n`. -/
theorem floor_weight_sum_le (n total : Nat) (htot : 0 < total) (ws : List Nat)
    (hsum : ws.sum ≤ total) :
    ((ws.map (fun w => w * n / total)).sum) ≤ n := by
  have h1 : ws.map (fun w => w * n / total)
      = (ws.map (fun w => w * n)).map (fun x => x / total) := by
    rw [List.map_map]
    rfl
  have h2 := sum_div_mul_le total (ws.map (fun w => w * n))
  rw [sum_map_mul n ws] at h2
  rw [← h1] at h2
  have h3 : ((ws.map (fun w => w * n / total)).sum) * total ≤ n * total := by
    calc ((ws.map (fun w => w * n / total)).sum) * total
        ≤ ws.sum * n := h2
      _ ≤ total * n := Nat.mul_le_mul_right n hsum
      _ = n * total := Nat.mul_comm _ _
  exact Nat.le_of_mul_le_mul_right h3 htot

/-- Dropping the last element cannot increase the sum. -/
theorem dropLast_sum_le (l : List Nat) : l.dropLast.sum ≤ l.sum := by
  induction l with
  | nil => simp
  | cons a rest ih =>
    cases rest with
    | nil => simp
    | cons b t =>
      simp only [List.dropLast_cons₂, List.sum_cons] at ih ⊢
      omega

/-- Closed form of the span lengths: every non-last section gets
`w * n / total` and the last section gets `n` minus everything already
assigned. -/
theorem sectionSpanLengths_closed (n total : Nat) (lens : List Nat) :
    ∀ led_idx : Nat, lens ≠ [] →
      sectionSpanLengths n total lens led_idx
        = lens.dropLast.map (fun w => w * n / total)
          ++ [n - (led_idx + (lens.dropLast.map (fun w => w * n / total)).sum)] := by
  induction lens with
  | nil => intro led_idx h; exact absurd rfl h
  | cons w rest ih =>
    intro led_idx _
    by_cases hr : rest = []
    · subst hr
      simp [sectionSpanLengths]
    · have hne : rest.isEmpty = false := by simp [hr]
      simp only [sectionSpanLengths, hne, Bool.false_eq_true, if_false]
      rw [ih (led_idx + w * n / total) hr, List.dropLast_cons_of_ne_nil hr]
      simp only [List.map_cons, List.sum_cons, List.cons_append]
      rw [Nat.add_assoc]

/-- The span lengths sum to exactly `n` whenever the non-last floors fit. -/
theorem sectionSpanLengths_sum_eq (n total : Nat) (lens : List Nat) (h : lens ≠ [])
    (hbound : (lens.dropLast.map (fun w => w * n / total)).sum ≤ n) :
    (sectionSpanLengths n total lens 0).sum = n := by
  rw [sectionSpanLengths_closed n total lens 0 h, List.sum_append]
  simp only [List.sum_cons, List.sum_nil]
  omega

/-- One span length per section. -/
theorem sectionSpanLengths_length (n total : Nat) (lens : List Nat) (h : lens ≠ [])
    (led_idx : Nat) :
    (sectionSpanLengths n total lens led_idx).length = lens.length := by
  rw [sectionSpanLengths_closed n total lens led_idx h]
  have hpos : 0 < lens.length := List.length_pos.mpr h
  simp only [List.length_append, List.length_map, List.length_dropLast,
    List.length_cons, List.length_nil]
  omega

/-- Length of the concatenation of the rendered spans. -/
theorem join_zipWith_replicate_length {α : Type} (lens : List Nat) :
    ∀ cs : List α, lens.length ≤ cs.length →
      ((List.zipWith (fun l c => List.replicate l c) lens cs).join).length = lens.sum := by
  induction lens with
  | nil => intro cs h; simp
  | cons a l ih =>
    intro cs h
    cases cs with
    | nil => simp at h
    | cons c cs' =>
      simp only [List.zipWith_cons_cons, List.join_cons, List.length_append,
        List.length_replicate, List.sum_cons]
      rw [ih cs' (by simpa using h)]

/-- The per-section loop writes the rendered spans contiguously from
`led_idx` and touches nothing else, provided they fit in the buffer. -/
theorem renderSections_concat (n total : Nat) (pairs : List (Nat × ColorPalette)) :
    ∀ (led_idx : Nat) (buf : List RGB8),
      led_idx + (sectionSpanLengths n total (pairs.map Prod.fst) led_idx).sum ≤ buf.length →
      renderSections n total pairs led_idx buf
        = buf.take led_idx
          ++ (List.zipWith (fun l c => List.replicate l c)
              (sectionSpanLengths n total (pairs.map Prod.fst) led_idx)
              (pairs.map (fun q => q.2.primary))).join
          ++ buf.drop (led_idx + (sectionSpanLengths n total (pairs.map Prod.fst) led_idx).sum) := by
  induction pairs with
  | nil =>
    intro led_idx buf h
    simp [renderSections, sectionSpanLengths]
  | cons hd rest ih =>
    obtain ⟨w, p⟩ := hd
    intro led_idx buf h
    by_cases hr : rest = []
    · subst hr
      simp only [List.map_cons, List.map_nil] at h ⊢
      simp only [sectionSpanLengths, List.isEmpty_nil, if_true, List.sum_cons,
        List.sum_nil, Nat.add_zero] at h ⊢
      simp only [renderSections, List.isEmpty_nil, if_true]
      rw [writeSpan_eq _ _ _ _ h]
      simp [List.append_assoc]
    · have hne : rest.isEmpty = false := by simp [hr]
      have hnem : (rest.map Prod.fst).isEmpty = false := by simp [hr]
      simp only [List.map_cons] at h ⊢
      simp only [sectionSpanLengths, hnem, Bool.false_eq_true, if_false,
        List.sum_cons] at h ⊢
      simp only [renderSections, hne, Bool.false_eq_true, if_false]
      have h1 : led_idx + w * n / total ≤ buf.length := by omega
      have hW := writeSpan_length buf led_idx (w * n / total) p.primary
      rw [ih (led_idx + w * n / total) (writeSpan buf led_idx (w * n / total) p.primary)
        (by rw [hW]; omega)]
      rw [writeSpan_eq _ _ _ _ h1]
      have hABlen : (buf.take led_idx ++ List.replicate (w * n / total) p.primary).length
          = led_idx + w * n / total := by
        rw [List.length_append, List.length_take, List.length_replicate,
          Nat.min_eq_left (Nat.le_trans (Nat.le_add_right _ _) h1)]
      rw [List.take_left' hABlen]
      have hdrop2 : (buf.take led_idx ++ List.replicate (w * n / total) p.primary
            ++ buf.drop (led_idx + w * n / total)).drop
          (led_idx + w * n / total
            + (sectionSpanLengths n total (rest.map Prod.fst)
                (led_idx + w * n / total)).sum)
          = buf.drop (led_idx + (w * n / total
              + (sectionSpanLengths n total (rest.map Prod.fst)
                  (led_idx + w * n / total)).sum)) := by
        rw [show led_idx + w * n / total
              + (sectionSpanLengths n total (rest.map Prod.fst)
                  (led_idx + w * n / total)).sum
            = (buf.take led_idx ++ List.replicate (w * n / total) p.primary).length
              + (sectionSpanLengths n total (rest.map Prod.fst)
                  (led_idx + w * n / total)).sum by omega]
        rw [drop_append_plus, List.drop_drop]
        congr 1
        omega
      rw [hdrop2]
      simp only [List.zipWith_cons_cons, List.join_cons, List.append_assoc]

/-- The effective weight list is one entry per active section. -/
theorem section_effWeights_length (e : SectionEffect) (h2 : e.count ≤ e.sections.length) :
    e.effWeights.length = e.count := by
  simp only [SectionEffect.effWeights]
  split_ifs
  · simp
  · simp [Nat.min_eq_left h2]

/-- The effective total is positive once a section is active. -/
theorem section_effTotal_pos (e : SectionEffect) (h1 : 1 ≤ e.count) : 0 < e.effTotal := by
  simp only [SectionEffect.effTotal]
  split_ifs with h
  · omega
  · omega

/-- The effective weights sum to the effective total. -/
theorem section_effWeights_sum (e : SectionEffect) : e.effWeights.sum = e.effTotal := by
  simp only [SectionEffect.effWeights, SectionEffect.effTotal]
  split_ifs with h
  · simp
  · rfl

/-- With at least one active section and an adequate buffer,
`SectionEffect::current` succeeds and replaces the first `num_leds` entries
by the concatenation of the rendered spans (the span lengths summing to
`num_leds`), leaving the rest of the buffer untouched. -/
theorem section_current_ok (e : SectionEffect) (buffer : List RGB8)
    (h1 : 1 ≤ e.count) (h2 : e.count ≤ e.sections.length)
    (hb : e.num_leds ≤ buffer.length) :
    (sectionSpanLengths e.num_leds e.effTotal e.effWeights 0).sum = e.num_leds ∧
    e.current buffer
      = ⟨.ok (),
          (List.zipWith (fun l c => List.replicate l c)
            (sectionSpanLengths e.num_leds e.effTotal e.effWeights 0)
            ((e.sections.take e.count).map (fun s => s.1.primary))).join
          ++ buffer.drop e.num_leds⟩ ∧
    ((List.zipWith (fun l c => List.replicate l c)
        (sectionSpanLengths e.num_leds e.effTotal e.effWeights 0)
        ((e.sections.take e.count).map (fun s => s.1.primary))).join).length
      = e.num_leds := by
  have hwlen := section_effWeights_length e h2
  have hne : e.effWeights ≠ [] := by
    intro hc
    rw [hc] at hwlen
    simp at hwlen
    omega
  have htot := section_effTotal_pos e h1
  have hdrop := dropLast_sum_le e.effWeights
  have hwsum := section_effWeights_sum e
  have hfloor : (e.effWeights.dropLast.map
      (fun w => w * e.num_leds / e.effTotal)).sum ≤ e.num_leds :=
    floor_weight_sum_le _ _ htot _ (by omega)
  have hsumlens := sectionSpanLengths_sum_eq _ _ _ hne hfloor
  have hclen : ((e.sections.take e.count).map Prod.fst).length = e.count := by
    simp [Nat.min_eq_left h2]
  have hfst : (e.effWeights.zip ((e.sections.take e.count).map Prod.fst)).map Prod.fst
      = e.effWeights :=
    List.map_fst_zip _ _ (by rw [hwlen, hclen])
  have hsnd : (e.effWeights.zip ((e.sections.take e.count).map Prod.fst)).map Prod.snd
      = (e.sections.take e.count).map Prod.fst :=
    List.map_snd_zip _ _ (by rw [hwlen, hclen])
  have hcolors : (e.effWeights.zip ((e.sections.take e.count).map Prod.fst)).map
        (fun q => q.2.primary)
      = (e.sections.take e.count).map (fun s => s.1.primary) := by
    have hm : (e.effWeights.zip ((e.sections.take e.count).map Prod.fst)).map
          (fun q => q.2.primary)
        = ((e.effWeights.zip ((e.sections.take e.count).map Prod.fst)).map
            Prod.snd).map (fun c => c.primary) := by
      rw [List.map_map]
      rfl
    rw [hm, hsnd, List.map_map]
    rfl
  have hllen : (sectionSpanLengths e.num_leds e.effTotal e.effWeights 0).length
      = e.count := by
    rw [sectionSpanLengths_length _ _ _ hne 0, hwlen]
  have hjoinlen : ((List.zipWith (fun l c => List.replicate l c)
        (sectionSpanLengths e.num_leds e.effTotal e.effWeights 0)
        ((e.sections.take e.count).map (fun s => s.1.primary))).join).length
      = e.num_leds := by
    rw [join_zipWith_replicate_length _ _ (by simp [hllen, Nat.min_eq_left h2]),
      hsumlens]
  refine ⟨hsumlens, ?_, hjoinlen⟩
  unfold SectionEffect.current
  rw [if_neg (Nat.not_lt.mpr hb), if_neg (by omega : ¬ e.count = 0)]
  dsimp only
  rw [renderSections_concat e.num_leds e.effTotal
    (e.effWeights.zip ((e.sections.take e.count).map Prod.fst)) 0 buffer
    (by rw [hfst]; omega)]
  rw [hfst, hcolors, hsumlens]
  simp

/-- C1: with at least one active section and an adequate buffer, `current`
assigns LED spans in section order: each non-last active section gets
exactly `floor(effective_weight * num_leds / effective_total)` LEDs (the
effective weights being the stored ones, or all 1 when the widened weight
sum is zero), the last active section gets exactly `num_leds` minus the LEDs
already assigned, the span lengths sum to exactly `num_leds`, and the first
`num_leds` buffer entries are exactly the concatenation of the spans (each
painted its section's primary color) with no gap or overlap; the buffer tail
is untouched. -/
theorem section_current_partition (e : SectionEffect) (buffer : List RGB8)
    (h1 : 1 ≤ e.count) (h2 : e.count ≤ e.sections.length)
    (hb : e.num_leds ≤ buffer.length) :
    (e.current buffer).result = .ok () ∧
    sectionSpanLengths e.num_leds e.effTotal e.effWeights 0
      = e.effWeights.dropLast.map (fun w => w * e.num_leds / e.effTotal)
        ++ [e.num_leds
            - (e.effWeights.dropLast.map (fun w => w * e.num_leds / e.effTotal)).sum] ∧
    (e.effWeights.dropLast.map (fun w => w * e.num_leds / e.effTotal)).sum
      ≤ e.num_leds ∧
    (sectionSpanLengths e.num_leds e.effTotal e.effWeights 0).sum = e.num_leds ∧
    (sectionSpanLengths e.num_leds e.effTotal e.effWeights 0).length = e.count ∧
    (e.current buffer).buffer.take e.num_leds
      = (List.zipWith (fun l c => List.replicate l c)
          (sectionSpanLengths e.num_leds e.effTotal e.effWeights 0)
          ((e.sections.take e.count).map (fun s => s.1.primary))).join ∧
    (e.current buffer).buffer.drop e.num_leds = buffer.drop e.num_leds := by
  obtain ⟨hsum, hcur, hjlen⟩ := section_current_ok e buffer h1 h2 hb
  have hwlen := section_effWeights_length e h2
  have hne : e.effWeights ≠ [] := by
    intro hc
    rw [hc] at hwlen
    simp at hwlen
    omega
  have htot := section_effTotal_pos e h1
  have hdrop := dropLast_sum_le e.effWeights
  have hwsum := section_effWeights_sum e
  have hfloor : (e.effWeights.dropLast.map
      (fun w => w * e.num_leds / e.effTotal)).sum ≤ e.num_leds :=
    floor_weight_sum_le _ _ htot _ (by omega)
  refine ⟨by rw [hcur], ?_, hfloor, hsum, by rw [sectionSpanLengths_length _ _ _ hne 0, hwlen], ?_, ?_⟩
  · rw [sectionSpanLengths_closed _ _ _ 0 hne]
    simp
  · rw [hcur]
    exact List.take_left' hjlen
  · rw [hcur]
    exact List.drop_left' hjlen

/-- Witness for C1: weights 1:2:1 over 12 LEDs render successfully with span
lengths summing to 12 (the 3/6/3 split). -/
theorem section_current_partition_witness :
    1 ≤ (3 : Nat) ∧
    (3 : Nat) ≤ ([(ColorPalette.mono ⟨255, 0, 0⟩, 1), (ColorPalette.mono ⟨0, 255, 0⟩, 2),
        (ColorPalette.mono ⟨0, 0, 255⟩, 1)]
      ++ List.replicate 5 (ColorPalette.mono black, 0)).length ∧
    (12 : Nat) ≤ (List.replicate 12 black).length ∧
    (SectionEffect.current
        ⟨12, [(ColorPalette.mono ⟨255, 0, 0⟩, 1), (ColorPalette.mono ⟨0, 255, 0⟩, 2),
            (ColorPalette.mono ⟨0, 0, 255⟩, 1)]
          ++ List.replicate 5 (ColorPalette.mono black, 0), 3⟩
        (List.replicate 12 black)).result = .ok () ∧
    (sectionSpanLengths 12
        (SectionEffect.effTotal
          ⟨12, [(ColorPalette.mono ⟨255, 0, 0⟩, 1), (ColorPalette.mono ⟨0, 255, 0⟩, 2),
              (ColorPalette.mono ⟨0, 0, 255⟩, 1)]
            ++ List.replicate 5 (ColorPalette.mono black, 0), 3⟩)
        (SectionEffect.effWeights
          ⟨12, [(ColorPalette.mono ⟨255, 0, 0⟩, 1), (ColorPalette.mono ⟨0, 255, 0⟩, 2),
              (ColorPalette.mono ⟨0, 0, 255⟩, 1)]
            ++ List.replicate 5 (ColorPalette.mono black, 0), 3⟩)
        0).sum = 12 := by
  refine ⟨by decide, by decide, by decide, ?_, ?_⟩
  · exact (section_current_partition
      ⟨12, [(ColorPalette.mono ⟨255, 0, 0⟩, 1), (ColorPalette.mono ⟨0, 255, 0⟩, 2),
          (ColorPalette.mono ⟨0, 0, 255⟩, 1)]
        ++ List.replicate 5 (ColorPalette.mono black, 0), 3⟩
      (List.replicate 12 black) (by decide) (by decide) (by decide)).1
  · exact (section_current_partition
      ⟨12, [(ColorPalette.mono ⟨255, 0, 0⟩, 1), (ColorPalette.mono ⟨0, 255, 0⟩, 2),
          (ColorPalette.mono ⟨0, 0, 255⟩, 1)]
        ++ List.replicate 5 (ColorPalette.mono black, 0), 3⟩
      (List.replicate 12 black) (by decide) (by decide) (by decide)).2.2.2.1

/-! ## C3: `current` succeeds on an adequate buffer, writes only the prefix,
and is idempotent -/

/-- Folded in-range writes preserve the buffer length. -/
theorem length_foldl_set {α : Type} (js : List Nat) (idx : Nat → Nat) (v : Nat → α) :
    ∀ init : List α, (js.foldl (fun b j => (b.set (idx j) (v j) : List α)) init).length
      = init.length := by
  induction js with
  | nil => intro init; rfl
  | cons j t ih =>
    intro init
    rw [List.foldl_cons, ih]
    exact List.length_set ..

/-- The spinner frame prefix always has exactly `num_leds` entries. -/
theorem spinner_framePrefix_length (e : SpinnerEffect) :
    e.framePrefix.length = e.num_leds := by
  unfold SpinnerEffect.framePrefix
  rw [length_foldl_set (List.range e.tail_length)
    (fun j => spinnerTailIndex e.direction (e.position % e.num_leds) e.num_leds (j + 1))
    (fun j => scale_brightness e.color (spinnerTailBrightness e.tail_length (j + 1)))]
  rw [List.length_set, List.length_replicate]

/-- The chase frame prefix always has exactly `num_leds` entries. -/
theorem chase_framePrefix_length (e : ChaseEffect) :
    e.framePrefix.length = e.num_leds := by
  unfold ChaseEffect.framePrefix
  rw [length_foldl_set (List.range e.segment_length)
    (fun i => (e.position + i) % e.num_leds) (fun _ => e.color)]
  exact List.length_replicate ..

/-- C3: for every effect whose `current` is handed a buffer of length at
least `num_leds`, the call succeeds, preserves the buffer length, leaves
`buffer[num_leds..]` unchanged, and a second `current` call on the produced
buffer returns the very same render (idempotence).  `current` takes the
effect by shared reference, so state immutability is structural: its result
is a function of the state alone. -/
theorem current_renders_prefix_and_is_idempotent :
    (∀ (e : RainbowEffect) (buf : List RGB8), e.num_leds ≤ buf.length →
      (e.current buf).result = .ok () ∧
      (e.current buf).buffer.length = buf.length ∧
      (e.current buf).buffer.drop e.num_leds = buf.drop e.num_leds ∧
      e.current ((e.current buf).buffer) = e.current buf) ∧
    (∀ (e : PulseEffect) (buf : List RGB8), e.num_leds ≤ buf.length →
      (e.current buf).result = .ok () ∧
      (e.current buf).buffer.length = buf.length ∧
      (e.current buf).buffer.drop e.num_leds = buf.drop e.num_leds ∧
      e.current ((e.current buf).buffer) = e.current buf) ∧
    (∀ (e : SpinnerEffect) (buf : List RGB8), e.num_leds ≤ buf.length →
      (e.current buf).result = .ok () ∧
      (e.current buf).buffer.length = buf.length ∧
      (e.current buf).buffer.drop e.num_leds = buf.drop e.num_leds ∧
      e.current ((e.current buf).buffer) = e.current buf) ∧
    (∀ (e : ChaseEffect) (buf : List RGB8), e.num_leds ≤ buf.length →
      (e.current buf).result = .ok () ∧
      (e.current buf).buffer.length = buf.length ∧
      (e.current buf).buffer.drop e.num_leds = buf.drop e.num_leds ∧
      e.current ((e.current buf).buffer) = e.current buf) ∧
    (∀ (e : FlashEffect) (buf : List RGB8), e.num_leds ≤ buf.length →
      (e.current buf).result = .ok () ∧
      (e.current buf).buffer.length = buf.length ∧
      (e.current buf).buffer.drop e.num_leds = buf.drop e.num_leds ∧
      e.current ((e.current buf).buffer) = e.current buf) ∧
    (∀ (e : ProgressEffect) (buf : List RGB8), e.num_leds ≤ buf.length →
      (e.current buf).result = .ok () ∧
      (e.current buf).buffer.length = buf.length ∧
      (e.current buf).buffer.drop e.num_leds = buf.drop e.num_leds ∧
      e.current ((e.current buf).buffer) = e.current buf) ∧
    (∀ (e : SectionEffect) (buf : List RGB8), e.count ≤ e.sections.length →
      e.num_leds ≤ buf.length →
      (e.current buf).result = .ok () ∧
      (e.current buf).buffer.length = buf.length ∧
      (e.current buf).buffer.drop e.num_leds = buf.drop e.num_leds ∧
      e.current ((e.current buf).buffer) = e.current buf) := by
  refine ⟨?_, ?_, ?_, ?_, ?_, ?_, ?_⟩
  · intro e buf hb
    have hP : ((List.range e.num_leds).map e.pixel).length = e.num_leds := by simp
    have hcur : ∀ b : List RGB8, e.num_leds ≤ b.length →
        e.current b = ⟨.ok (), (List.range e.num_leds).map e.pixel ++ b.drop e.num_leds⟩ := by
      intro b hb2
      unfold RainbowEffect.current
      rw [if_neg (Nat.not_lt.mpr hb2)]
    have h1 := hcur buf hb
    have hlen : ((List.range e.num_leds).map e.pixel ++ buf.drop e.num_leds).length
        = buf.length := by
      rw [List.length_append, hP, List.length_drop]
      omega
    refine ⟨by rw [h1], by rw [h1]; exact hlen, by rw [h1]; exact List.drop_left' hP, ?_⟩
    have h2 := hcur ((e.current buf).buffer) (by rw [h1]; rw [hlen]; exact hb)
    rw [h2, h1]
    dsimp only
    rw [List.drop_left' hP]
  · intro e buf hb
    have hP : (List.replicate e.num_leds
        (scale_brightness e.color e.current_brightness)).length = e.num_leds := by simp
    have hcur : ∀ b : List RGB8, e.num_leds ≤ b.length →
        e.current b = ⟨.ok (), List.replicate e.num_leds
          (scale_brightness e.color e.current_brightness) ++ b.drop e.num_leds⟩ := by
      intro b hb2
      unfold PulseEffect.current
      rw [if_neg (Nat.not_lt.mpr hb2)]
    have h1 := hcur buf hb
    have hlen : (List.replicate e.num_leds (scale_brightness e.color e.current_brightness)
        ++ buf.drop e.num_leds).length = buf.length := by
      rw [List.length_append, hP, List.length_drop]
      omega
    refine ⟨by rw [h1], by rw [h1]; exact hlen, by rw [h1]; exact List.drop_left' hP, ?_⟩
    have h2 := hcur ((e.current buf).buffer) (by rw [h1]; rw [hlen]; exact hb)
    rw [h2, h1]
    dsimp only
    rw [List.drop_left' hP]
  · intro e buf hb
    have hP := spinner_framePrefix_length e
    have hcur : ∀ b : List RGB8, e.num_leds ≤ b.length →
        e.current b = ⟨.ok (), e.framePrefix ++ b.drop e.num_leds⟩ := by
      intro b hb2
      unfold SpinnerEffect.current
      rw [if_neg (Nat.not_lt.mpr hb2)]
    have h1 := hcur buf hb
    have hlen : (e.framePrefix ++ buf.drop e.num_leds).length = buf.length := by
      rw [List.length_append, hP, List.length_drop]
      omega
    refine ⟨by rw [h1], by rw [h1]; exact hlen, by rw [h1]; exact List.drop_left' hP, ?_⟩
    have h2 := hcur ((e.current buf).buffer) (by rw [h1]; rw [hlen]; exact hb)
    rw [h2, h1]
    dsimp only
    rw [List.drop_left' hP]
  · intro e buf hb
    have hP := chase_framePrefix_length e
    have hcur : ∀ b : List RGB8, e.num_leds ≤ b.length →
        e.current b = ⟨.ok (), e.framePrefix ++ b.drop e.num_leds⟩ := by
      intro b hb2
      unfold ChaseEffect.current
      rw [if_neg (Nat.not_lt.mpr hb2)]
    have h1 := hcur buf hb
    have hlen : (e.framePrefix ++ buf.drop e.num_leds).length = buf.length := by
      rw [List.length_append, hP, List.length_drop]
      omega
    refine ⟨by rw [h1], by rw [h1]; exact hlen, by rw [h1]; exact List.drop_left' hP, ?_⟩
    have h2 := hcur ((e.current buf).buffer) (by rw [h1]; rw [hlen]; exact hb)
    rw [h2, h1]
    dsimp only
    rw [List.drop_left' hP]
  · intro e buf hb
    have hP : (List.replicate e.num_leds
        (if e.is_on then e.color else e.off_color)).length = e.num_leds := by simp
    have hcur : ∀ b : List RGB8, e.num_leds ≤ b.length →
        e.current b = ⟨.ok (), List.replicate e.num_leds
          (if e.is_on then e.color else e.off_color) ++ b.drop e.num_leds⟩ := by
      intro b hb2
      unfold FlashEffect.current
      rw [if_neg (Nat.not_lt.mpr hb2)]
    have h1 := hcur buf hb
    have hlen : (List.replicate e.num_leds (if e.is_on then e.color else e.off_color)
        ++ buf.drop e.num_leds).length = buf.length := by
      rw [List.length_append, hP, List.length_drop]
      omega
    refine ⟨by rw [h1], by rw [h1]; exact hlen, by rw [h1]; exact List.drop_left' hP, ?_⟩
    have h2 := hcur ((e.current buf).buffer) (by rw [h1]; rw [hlen]; exact hb)
    rw [h2, h1]
    dsimp only
    rw [List.drop_left' hP]
  · intro e buf hb
    have hP : ((List.range e.num_leds).map e.pixel).length = e.num_leds := by simp
    have hcur : ∀ b : List RGB8, e.num_leds ≤ b.length →
        e.current b = ⟨.ok (), (List.range e.num_leds).map e.pixel ++ b.drop e.num_leds⟩ := by
      intro b hb2
      unfold ProgressEffect.current
      rw [if_neg (Nat.not_lt.mpr hb2)]
    have h1 := hcur buf hb
    have hlen : ((List.range e.num_leds).map e.pixel ++ buf.drop e.num_leds).length
        = buf.length := by
      rw [List.length_append, hP, List.length_drop]
      omega
    refine ⟨by rw [h1], by rw [h1]; exact hlen, by rw [h1]; exact List.drop_left' hP, ?_⟩
    have h2 := hcur ((e.current buf).buffer) (by rw [h1]; rw [hlen]; exact hb)
    rw [h2, h1]
    dsimp only
    rw [List.drop_left' hP]
  · intro e buf h2sec hb
    by_cases hc : e.count = 0
    · have hP : (List.replicate e.num_leds black).length = e.num_leds := by simp
      have hcur : ∀ b : List RGB8, e.num_leds ≤ b.length →
          e.current b = ⟨.ok (), List.replicate e.num_leds black ++ b.drop e.num_leds⟩ := by
        intro b hb2
        unfold SectionEffect.current
        rw [if_neg (Nat.not_lt.mpr hb2), if_pos hc]
      have h1 := hcur buf hb
      have hlen : (List.replicate e.num_leds black ++ buf.drop e.num_leds).length
          = buf.length := by
        rw [List.length_append, hP, List.length_drop]
        omega
      refine ⟨by rw [h1], by rw [h1]; exact hlen, by rw [h1]; exact List.drop_left' hP, ?_⟩
      have h2 := hcur ((e.current buf).buffer) (by rw [h1]; rw [hlen]; exact hb)
      rw [h2, h1]
      dsimp only
      rw [List.drop_left' hP]
    · have h1c : 1 ≤ e.count := by omega
      obtain ⟨-, h1, hP⟩ := section_current_ok e buf h1c h2sec hb
      have hlen : ((List.zipWith (fun l c => List.replicate l c)
            (sectionSpanLengths e.num_leds e.effTotal e.effWeights 0)
            ((e.sections.take e.count).map (fun s => s.1.primary))).join
          ++ buf.drop e.num_leds).length = buf.length := by
        rw [List.length_append, hP, List.length_drop]
        omega
      refine ⟨by rw [h1], by rw [h1]; exact hlen, by rw [h1]; exact List.drop_left' hP, ?_⟩
      obtain ⟨-, h2, -⟩ := section_current_ok e ((e.current buf).buffer) h1c h2sec
        (by rw [h1]; dsimp only; rw [hlen]; exact hb)
      rw [h2, h1]
      dsimp only
      rw [List.drop_left' hP]

/-- Witness for C3: each effect, configured for a small ring and handed an
exactly-sized buffer, renders successfully. -/
theorem current_renders_prefix_witness :
    ((6 : Nat) ≤ (List.replicate 6 black).length ∧
      (RainbowEffect.current ⟨6, 0, 1, 255, 255, .Clockwise⟩
        (List.replicate 6 black)).result = .ok ()) ∧
    ((PulseEffect.current ⟨6, ⟨255, 255, 255⟩, 0, 2, 0, 255⟩
        (List.replicate 6 black)).result = .ok ()) ∧
    ((SpinnerEffect.current ⟨8, ⟨255, 255, 255⟩, 0, 1, 3, .Clockwise⟩
        (List.replicate 8 black)).result = .ok ()) ∧
    ((ChaseEffect.current ⟨8, ⟨255, 255, 255⟩, 0, 1, 3, .Clockwise⟩
        (List.replicate 8 black)).result = .ok ()) ∧
    ((FlashEffect.current ⟨4, ⟨255, 255, 255⟩, black, 4, 4, 0⟩
        (List.replicate 4 black)).result = .ok ()) ∧
    ((ProgressEffect.current ⟨4, ⟨0, 255, 0⟩, black, 128⟩
        (List.replicate 4 black)).result = .ok ()) ∧
    ((⟨8, [(ColorPalette.mono ⟨255, 0, 0⟩, 1), (ColorPalette.mono ⟨0, 0, 255⟩, 1)]
          ++ List.replicate 6 (ColorPalette.mono black, 0), 2⟩ : SectionEffect).count
        ≤ ([(ColorPalette.mono ⟨255, 0, 0⟩, 1), (ColorPalette.mono ⟨0, 0, 255⟩, 1)]
          ++ List.replicate 6 (ColorPalette.mono black, 0)).length ∧
      (SectionEffect.current
        ⟨8, [(ColorPalette.mono ⟨255, 0, 0⟩, 1), (ColorPalette.mono ⟨0, 0, 255⟩, 1)]
          ++ List.replicate 6 (ColorPalette.mono black, 0), 2⟩
        (List.replicate 8 black)).result = .ok ()) := by
  refine ⟨⟨by decide, ?_⟩, ?_, ?_, ?_, ?_, ?_, by decide, ?_⟩
  · exact (current_renders_prefix_and_is_idempotent.1 ⟨6, 0, 1, 255, 255, .Clockwise⟩
      (List.replicate 6 black) (by decide)).1
  · exact (current_renders_prefix_and_is_idempotent.2.1 ⟨6, ⟨255, 255, 255⟩, 0, 2, 0, 255⟩
      (List.replicate 6 black) (by decide)).1
  · exact (current_renders_prefix_and_is_idempotent.2.2.1
      ⟨8, ⟨255, 255, 255⟩, 0, 1, 3, .Clockwise⟩ (List.replicate 8 black) (by decide)).1
  · exact (current_renders_prefix_and_is_idempotent.2.2.2.1
      ⟨8, ⟨255, 255, 255⟩, 0, 1, 3, .Clockwise⟩ (List.replicate 8 black) (by decide)).1
  · exact (current_renders_prefix_and_is_idempotent.2.2.2.2.1
      ⟨4, ⟨255, 255, 255⟩, black, 4, 4, 0⟩ (List.replicate 4 black) (by decide)).1
  · exact (current_renders_prefix_and_is_idempotent.2.2.2.2.2.1
      ⟨4, ⟨0, 255, 0⟩, black, 128⟩ (List.replicate 4 black) (by decide)).1
  · exact (current_renders_prefix_and_is_idempotent.2.2.2.2.2.2
      ⟨8, [(ColorPalette.mono ⟨255, 0, 0⟩, 1), (ColorPalette.mono ⟨0, 0, 255⟩, 1)]
        ++ List.replicate 6 (ColorPalette.mono black, 0), 2⟩
      (List.replicate 8 black) (by decide) (by decide)).1

end Ferriswheel
